import Mathlib

/-!
Shallow embedding of the `create-digitaltwin` project scaffolding generator
(`src/generators/project.ts`, with the repository's historical revisions of the
same generator) and verification of its cross-consistency properties.

The generator is a pure function from a validated options record
(`ProjectAnswers`) to a set of (relative path, content) artifacts.  Each
fragment selector and file composer of the source is translated here as an
executable Lean definition; line-oriented artifacts (the environment template,
the multi-service composition, the guide's setup steps) are embedded as
structured line lists together with a rendering function that reproduces the
exact emitted text, so that claims about variable names, service sets and step
numbers are statable without re-parsing the emitted strings.

Literal braces inside embedded file content are written with the escapes
`\x7b` and `\x7d`; the string values are unchanged.
-/

namespace CreateDigitalTwin

/-- JavaScript's `x || d` idiom for an optional string option: `undefined`
and the empty string (both falsy) fall back to the default. -/
def jsOr (x : Option String) (d : String) : String :=
  match x with
  | none => d
  | some s => if s = "" then d else s

/-- The Options Model: `ProjectAnswers` from `src/types/project-config.ts`.
The `database` and `storage` fields are kept as strings, exactly as the
JavaScript runtime sees them, so that out-of-range values are statable;
`validAnswers` below carries the TypeScript enum constraint. -/
structure ProjectAnswers where
  projectName : String
  projectPath : String
  database : String
  storage : String
  localStoragePath : Option String
  useRedis : Bool
  includeDocker : Bool
  includeExamples : Bool
deriving DecidableEq

/-- The field invariants of the Options Model: `database` is one of the
`DatabaseType` enum values and `storage` one of the `StorageType` values. -/
def validAnswers (a : ProjectAnswers) : Prop :=
  (a.database = "sqlite" ∨ a.database = "postgresql") ∧
  (a.storage = "local" ∨ a.storage = "ovh")

instance (a : ProjectAnswers) : Decidable (validAnswers a) := by
  unfold validAnswers; infer_instance

/-- The concrete scenario of the spec: sqlite, local storage, no redis,
no docker, no examples. -/
def demoAnswers : ProjectAnswers :=
  { projectName := "demo", projectPath := "demo", database := "sqlite",
    storage := "local", localStoragePath := none, useRedis := false,
    includeDocker := false, includeExamples := false }

/-- The demo scenario with the PostgreSQL database instead. -/
def demoPgAnswers : ProjectAnswers :=
  { demoAnswers with database := "postgresql" }

/-- An Options Model whose `database` field lies outside the legal enum
range. -/
def badDatabaseAnswers : ProjectAnswers :=
  { demoAnswers with database := "mysql" }

/-! ## Dependency selector (`generatePackageJson`, src revision lines 46-100) -/

/-- The `dependencies` map of the generated `package.json`, in the insertion
order of `generatePackageJson`: the three fixed packages, then the database
driver, then the queue client, then the object-storage client. -/
def packageDependencies (a : ProjectAnswers) : List (String × String) :=
  [("digitaltwin-core", "^0.1.0"), ("knex", "^3.0.0"), ("commander", "^12.0.0")]
  ++ (if a.database = "postgresql" then [("pg", "^8.11.0")]
      else [("sqlite3", "^5.1.7")])
  ++ (if a.useRedis then [("ioredis", "^5.6.1")] else [])
  ++ (if a.storage = "ovh" then [("@aws-sdk/client-s3", "^3.842.0")] else [])

/-- The `devDependencies` map of the generated `package.json`. -/
def packageDevDependencies (a : ProjectAnswers) : List (String × String) :=
  [("@types/node", "^24.0.10"), ("typescript", "^5.0.0"), ("ts-node-dev", "^2.0.0")]
  ++ (if a.database = "postgresql" then [("@types/pg", "^8.10.0")] else [])

/-- The package names of the generated dependency map. -/
def depNames (a : ProjectAnswers) : List String :=
  (packageDependencies a).map Prod.fst

/-- The package names of the generated dev-dependency map. -/
def devDepNames (a : ProjectAnswers) : List String :=
  (packageDevDependencies a).map Prod.fst

/-! ## Environment-template composer (`generateEnvFile`, src revision lines 435-497) -/

/-- One line of the generated `.env` template: a `# ...` comment, a blank
line, or a `NAME=value` assignment. -/
inductive EnvLine where
  | comment (text : String)
  | blank
  | assign (name value : String)
deriving DecidableEq

/-- The emitted text of one `.env` line. -/
def renderEnvLine : EnvLine → String
  | .comment t => "# " ++ t
  | .blank => ""
  | .assign n v => n ++ "=" ++ v

/-- Concatenation of rendered lines, each terminated by a newline; this is the
shape `generateEnvFile` builds with its template literals. -/
def concatLines : List EnvLine → String
  | [] => ""
  | l :: ls => (renderEnvLine l ++ "\n") ++ concatLines ls

/-- The fixed closing block every generated `.env` template receives
(source lines 488-494). -/
def envFinalLines : List EnvLine :=
  [.blank, .comment "Development Configuration",
   .assign "NODE_ENV" "development",
   .blank, .comment "Logging",
   .assign "LOG_LEVEL" "info"]

/-- The lines of the generated `.env` template before the fixed closing
block, following `generateEnvFile`'s concatenation order: header, port,
database block, storage block, then the optional redis block. -/
def envPrefixLines (a : ProjectAnswers) : List EnvLine :=
  [.comment (a.projectName ++ " Digital Twin Configuration"),
   .comment "This file contains environment variables for your Digital Twin application",
   .comment "Copy this to .env and update the values as needed",
   .blank,
   .comment "Application Configuration",
   .assign "PORT" "3000",
   .blank,
   .comment "Database Configuration"]
  ++ (if a.database = "postgresql" then
       [.comment "PostgreSQL Database (Required for production)",
        .assign "DB_HOST" "localhost",
        .assign "DB_PORT" "5432",
        .assign "DB_USER" "postgres",
        .assign "DB_PASSWORD" "password",
        .assign "DB_NAME" a.projectName]
      else
       [.comment "SQLite Database (Good for development)",
        .assign "DB_PATH" ("./data/" ++ a.projectName ++ ".db")])
  ++ [.blank, .comment "Storage Configuration"]
  ++ (if a.storage = "local" then
       [.comment "Local File Storage",
        .assign "STORAGE_PATH" (jsOr a.localStoragePath "./uploads")]
      else
       [.comment "OVH Object Storage (S3-compatible)",
        .assign "OVH_ACCESS_KEY" "your_ovh_access_key_here",
        .assign "OVH_SECRET_KEY" "your_ovh_secret_key_here",
        .assign "OVH_ENDPOINT" "https://s3.gra.io.cloud.ovh.net",
        .assign "OVH_REGION" "gra",
        .assign "OVH_BUCKET" (a.projectName ++ "-storage")])
  ++ (if a.useRedis then
       [.blank, .comment "Redis Configuration (Queue Management)",
        .assign "REDIS_HOST" "localhost",
        .assign "REDIS_PORT" "6379"]
      else [])

/-- All lines of the generated `.env` template. -/
def envFileLines (a : ProjectAnswers) : List EnvLine :=
  envPrefixLines a ++ envFinalLines

/-- The full text of the generated `.env` template. -/
def generateEnvFile (a : ProjectAnswers) : String :=
  concatLines (envFileLines a)

/-- The environment variable names assigned a value in the generated `.env`
template, in emission order. -/
def envAssignNames (a : ProjectAnswers) : List String :=
  (envFileLines a).filterMap (fun l =>
    match l with
    | .assign n _ => some n
    | _ => none)

/-! ## Entry-point composer (`generateIndexFile`, src revision lines 119-250) -/

/-- One declaration of the generated entry point's `Env.validate` schema:
a variable name, the schema kind (`string` or `number`), whether it is
optional, and whether it carries the `url` format constraint. -/
structure SchemaEntry where
  name : String
  kind : String
  optional : Bool
  urlFormat : Bool
deriving DecidableEq

/-- The emitted text of one schema declaration, e.g.
`DB_PORT: Env.schema.number({ optional: true })`. -/
def renderSchemaEntry (e : SchemaEntry) : String :=
  e.name ++ ": Env.schema." ++ e.kind ++ "(" ++
  (if e.urlFormat then "\x7b format: 'url' \x7d"
   else if e.optional then "\x7b optional: true \x7d" else "") ++ ")"

/-- A schema fragment as `generateIndexFile` splices it: a leading newline,
an indented `//` comment, then one indented declaration per variable, each
followed by a comma. -/
def renderSchemaBlock (comment : String) (es : List SchemaEntry) : String :=
  "\n    // " ++ comment ++
  String.join (es.map (fun e => "\n    " ++ renderSchemaEntry e ++ ","))

/-- The PostgreSQL branch of the entry point's database schema fragment. -/
def pgSchemaEntries : List SchemaEntry :=
  [⟨"DB_HOST", "string", false, false⟩,
   ⟨"DB_PORT", "number", true, false⟩,
   ⟨"DB_USER", "string", false, false⟩,
   ⟨"DB_PASSWORD", "string", false, false⟩,
   ⟨"DB_NAME", "string", false, false⟩]

/-- The SQLite branch of the entry point's database schema fragment. -/
def sqliteSchemaEntries : List SchemaEntry :=
  [⟨"DB_PATH", "string", true, false⟩]

/-- The local-storage branch of the entry point's storage schema fragment. -/
def localStorageSchemaEntries : List SchemaEntry :=
  [⟨"STORAGE_PATH", "string", true, false⟩]

/-- The OVH object-storage branch of the entry point's storage schema
fragment. -/
def ovhSchemaEntries : List SchemaEntry :=
  [⟨"OVH_ACCESS_KEY", "string", false, false⟩,
   ⟨"OVH_SECRET_KEY", "string", false, false⟩,
   ⟨"OVH_ENDPOINT", "string", false, true⟩,
   ⟨"OVH_REGION", "string", true, false⟩,
   ⟨"OVH_BUCKET", "string", false, false⟩]

/-- The redis schema fragment, spliced only when `useRedis`. -/
def redisSchemaEntries : List SchemaEntry :=
  [⟨"REDIS_HOST", "string", true, false⟩,
   ⟨"REDIS_PORT", "number", true, false⟩]

/-- Every variable declared by the generated entry point's `Env.validate`
schema, in splice order: the fixed optional `PORT`, the database branch, the
storage branch, and the redis fragment when `useRedis`. -/
def schemaEntries (a : ProjectAnswers) : List SchemaEntry :=
  ⟨"PORT", "number", true, false⟩ ::
  ((if a.database = "postgresql" then pgSchemaEntries else sqliteSchemaEntries)
   ++ (if a.storage = "local" then localStorageSchemaEntries else ovhSchemaEntries)
   ++ (if a.useRedis then redisSchemaEntries else []))

/-- The names of the variables declared by the entry point's validation
schema. -/
def schemaVarNames (a : ProjectAnswers) : List String :=
  (schemaEntries a).map SchemaEntry.name

/-- `dbConfigSection` of `generateIndexFile`. -/
def dbConfigSection (a : ProjectAnswers) : String :=
  if a.database = "postgresql" then
    renderSchemaBlock "PostgreSQL configuration" pgSchemaEntries
  else
    renderSchemaBlock "SQLite configuration" sqliteSchemaEntries

/-- `storageConfigSection` of `generateIndexFile`. -/
def storageConfigSection (a : ProjectAnswers) : String :=
  if a.storage = "local" then
    renderSchemaBlock "Local storage configuration" localStorageSchemaEntries
  else
    renderSchemaBlock "OVH Object Storage configuration" ovhSchemaEntries

/-- `redisConfigSection` of `generateIndexFile`; note the source's two
trailing blanks after the comment. -/
def redisConfigSection (a : ProjectAnswers) : String :=
  if a.useRedis then
    renderSchemaBlock "Redis configuration  " redisSchemaEntries
  else ""

/-- `storageClass` selected for the generated code. -/
def storageClassName (a : ProjectAnswers) : String :=
  if a.storage = "local" then "LocalStorageService" else "OvhS3StorageService"

/-- `exampleImports` of `generateIndexFile`. -/
def exampleImportsStr (a : ProjectAnswers) : String :=
  if a.includeExamples then
    "import \x7b RandomDataCollector, DataProcessor \x7d from './components/index.js'"
  else ""

/-- `storageInit` of `generateIndexFile`. -/
def storageInitStr (a : ProjectAnswers) : String :=
  if a.storage = "local" then
    "env.STORAGE_PATH || '" ++ jsOr a.localStoragePath "./uploads" ++ "'"
  else
    "\x7b\n    accessKey: env.OVH_ACCESS_KEY,\n    secretKey: env.OVH_SECRET_KEY,\n    endpoint: env.OVH_ENDPOINT,\n    region: env.OVH_REGION || 'gra',\n    bucket: env.OVH_BUCKET\n  \x7d"

/-- `dbConfig` of `generateIndexFile`. -/
def dbConfigStr (a : ProjectAnswers) : String :=
  if a.database = "postgresql" then
    "\x7b\n    client: 'pg',\n    connection: \x7b\n      host: env.DB_HOST,\n      port: env.DB_PORT || 5432,\n      user: env.DB_USER,\n      password: env.DB_PASSWORD,\n      database: env.DB_NAME\n    \x7d\n  \x7d"
  else
    "\x7b\n    client: 'sqlite3',\n    connection: \x7b\n      filename: env.DB_PATH || './data/" ++ a.projectName ++ ".db'\n    \x7d,\n    useNullAsDefault: true\n  \x7d"

/-- `exampleComponents` of `generateIndexFile`. -/
def exampleComponentsStr (a : ProjectAnswers) : String :=
  if a.includeExamples then
    "collectors: [new RandomDataCollector()],\n    handlers: [new DataProcessor()],"
  else ""

/-- `storageDisplay` of `generateIndexFile`. -/
def storageDisplay (a : ProjectAnswers) : String :=
  if a.storage = "local" then
    "Local filesystem ($\x7benv.STORAGE_PATH || '" ++ jsOr a.localStoragePath "./uploads" ++ "'\x7d)"
  else "OVH Object Storage"

/-- `queueDisplay` of `generateIndexFile`. -/
def queueDisplay (a : ProjectAnswers) : String :=
  if a.useRedis then "Redis enabled" else "In-memory mode"

/-- `dbDisplay` of `generateIndexFile`. -/
def dbDisplay (a : ProjectAnswers) : String :=
  if a.database = "postgresql" then "PostgreSQL" else "SQLite"

/-- The full text of the generated `src/index.ts` (the braces of the emitted
TypeScript are written with the `\x7b`/`\x7d` escapes). -/
def generateIndexFile (a : ProjectAnswers) : String :=
  "import \x7b DigitalTwinEngine, KnexDatabaseAdapter, Env \x7d from 'digitaltwin-core'\n"
  ++ "import \x7b " ++ storageClassName a ++ " \x7d from 'digitaltwin-core'\n"
  ++ exampleImportsStr a ++ "\n"
  ++ "\n"
  ++ "async function main(): Promise<void> \x7b\n"
  ++ "  console.log('🔷 Starting " ++ a.projectName ++ " Digital Twin...')\n"
  ++ "  \n"
  ++ "  // Validate environment variables\n"
  ++ "  const env = Env.validate(\x7b\n"
  ++ "    PORT: Env.schema.number(\x7b optional: true \x7d),"
  ++ dbConfigSection a ++ storageConfigSection a ++ redisConfigSection a ++ "\n"
  ++ "  \x7d)\n"
  ++ "  \n"
  ++ "  console.log('✅ Environment variables validated')\n"
  ++ "  \n"
  ++ "  // Initialize storage service first\n"
  ++ "  const storage = new " ++ storageClassName a ++ "(" ++ storageInitStr a ++ ")\n"
  ++ "  \n"
  ++ "  // Database configuration\n"
  ++ "  const dbConfig = " ++ dbConfigStr a ++ "\n"
  ++ "  \n"
  ++ "  // Initialize database adapter\n"
  ++ "  const database = new KnexDatabaseAdapter(dbConfig, storage)\n"
  ++ "  \n"
  ++ "  // Create Digital Twin Engine\n"
  ++ "  const engine = new DigitalTwinEngine(\x7b\n"
  ++ "    database,\n"
  ++ "    storage,\n"
  ++ "    " ++ exampleComponentsStr a ++ "\n"
  ++ "  \x7d)\n"
  ++ "  \n"
  ++ "  console.log('🔧 Digital Twin Engine configured')\n"
  ++ "  \n"
  ++ "  // Start the engine\n"
  ++ "  await engine.start()\n"
  ++ "  const port = engine.getPort() || env.PORT || 3000\n"
  ++ "  console.log(`🚀 Digital Twin Engine started on port $\x7bport\x7d`)\n"
  ++ "  console.log(`📊 Database: " ++ dbDisplay a ++ "`)\n"
  ++ "  console.log(`💾 Storage: " ++ storageDisplay a ++ "`)\n"
  ++ "  console.log(`🔄 Queue: " ++ queueDisplay a ++ "`)\n"
  ++ "  \n"
  ++ "  // Graceful shutdown\n"
  ++ "  process.on('SIGINT', async () => \x7b\n"
  ++ "    console.log('\\n🛑 Shutting down gracefully...')\n"
  ++ "    await engine.stop()\n"
  ++ "    process.exit(0)\n"
  ++ "  \x7d)\n"
  ++ "\x7d\n"
  ++ "\n"
  ++ "main().catch((error: Error) => \x7b\n"
  ++ "  console.error('❌ Failed to start Digital Twin Engine:', error.message)\n"
  ++ "  process.exit(1)\n"
  ++ "\x7d)\n"

/-! ## CLI composer (`generateCliFile`, src revision lines 252-393) -/

/-- `storageInit` of `generateCliFile` (reads `process.env` with fallbacks). -/
def cliStorageInitStr (a : ProjectAnswers) : String :=
  if a.storage = "local" then
    "process.env.STORAGE_PATH || '" ++ jsOr a.localStoragePath "./uploads" ++ "'"
  else
    "\x7b\n    accessKey: process.env.OVH_ACCESS_KEY || '',\n    secretKey: process.env.OVH_SECRET_KEY || '',\n    endpoint: process.env.OVH_ENDPOINT || '',\n    region: process.env.OVH_REGION || 'gra',\n    bucket: process.env.OVH_BUCKET || '" ++ a.projectName ++ "-storage'\n  \x7d"

/-- `dbConfig` of `generateCliFile`. -/
def cliDbConfigStr (a : ProjectAnswers) : String :=
  if a.database = "postgresql" then
    "\x7b\n    client: 'pg',\n    connection: \x7b\n      host: process.env.DB_HOST || 'localhost',\n      port: parseInt(process.env.DB_PORT || '5432'),\n      user: process.env.DB_USER || 'postgres',\n      password: process.env.DB_PASSWORD || 'password',\n      database: process.env.DB_NAME || '" ++ a.projectName ++ "'\n    \x7d\n  \x7d"
  else
    "\x7b\n    client: 'sqlite3',\n    connection: \x7b\n      filename: process.env.DB_PATH || './data/" ++ a.projectName ++ ".db'\n    \x7d,\n    useNullAsDefault: true\n  \x7d"

/-- The full text of the generated `src/dt-cli.ts`: a self-contained
`commander` program with its own `test` and `dev` command implementations. -/
def generateCliFile (a : ProjectAnswers) : String :=
  "#!/usr/bin/env node\n"
  ++ "\n"
  ++ "import \x7b DigitalTwinEngine, KnexDatabaseAdapter \x7d from 'digitaltwin-core'\n"
  ++ "import \x7b " ++ storageClassName a ++ " \x7d from 'digitaltwin-core'\n"
  ++ "import \x7b program \x7d from 'commander'\n"
  ++ "import \x7b fileURLToPath \x7d from 'url'\n"
  ++ "import path from 'path'\n"
  ++ "import fs from 'fs'\n"
  ++ "\n"
  ++ "const __filename = fileURLToPath(import.meta.url)\n"
  ++ "const __dirname = path.dirname(__filename)\n"
  ++ "\n"
  ++ "// Load environment variables\n"
  ++ "const envPath = path.join(__dirname, '../.env')\n"
  ++ "if (fs.existsSync(envPath)) \x7b\n"
  ++ "  const envContent = fs.readFileSync(envPath, 'utf8')\n"
  ++ "  envContent.split('\\n').forEach(line => \x7b\n"
  ++ "    const [key, value] = line.split('=')\n"
  ++ "    if (key && value) \x7b\n"
  ++ "      process.env[key.trim()] = value.trim()\n"
  ++ "    \x7d\n"
  ++ "  \x7d)\n"
  ++ "\x7d\n"
  ++ "\n"
  ++ "async function createEngine(): Promise<DigitalTwinEngine> \x7b\n"
  ++ "  // Initialize storage service first\n"
  ++ "  const storage = new " ++ storageClassName a ++ "(" ++ cliStorageInitStr a ++ ")\n"
  ++ "  \n"
  ++ "  // Database configuration\n"
  ++ "  const dbConfig = " ++ cliDbConfigStr a ++ "\n"
  ++ "  \n"
  ++ "  // Initialize database adapter\n"
  ++ "  const database = new KnexDatabaseAdapter(dbConfig, storage)\n"
  ++ "  \n"
  ++ "  // Create Digital Twin Engine\n"
  ++ "  const engine = new DigitalTwinEngine(\x7b\n"
  ++ "    database,\n"
  ++ "    storage\n"
  ++ "  \x7d)\n"
  ++ "  \n"
  ++ "  return engine\n"
  ++ "\x7d\n"
  ++ "\n"
  ++ "program\n"
  ++ "  .version('1.0.0')\n"
  ++ "  .description('Digital Twin CLI commands')\n"
  ++ "\n"
  ++ "program\n"
  ++ "  .command('test')\n"
  ++ "  .description('Run dry-run validation')\n"
  ++ "  .action(async () => \x7b\n"
  ++ "    console.log('🧪 Running dry-run validation...')\n"
  ++ "    \n"
  ++ "    try \x7b\n"
  ++ "      const engine = await createEngine()\n"
  ++ "      \n"
  ++ "      // Run validation\n"
  ++ "      const result = await engine.validateConfiguration()\n"
  ++ "      \n"
  ++ "      if (result.valid) \x7b\n"
  ++ "        console.log('✅ Dry-run validation completed successfully')\n"
  ++ "        console.log(`📊 Components: $\x7bresult.summary.valid\x7d/$\x7bresult.summary.total\x7d valid`)\n"
  ++ "      \x7d else \x7b\n"
  ++ "        console.log('❌ Validation failed')\n"
  ++ "        result.components.forEach(comp => \x7b\n"
  ++ "          if (!comp.valid) \x7b\n"
  ++ "            console.log(`  • $\x7bcomp.name\x7d ($\x7bcomp.type\x7d): $\x7bcomp.errors.join(', ')\x7d`)\n"
  ++ "          \x7d\n"
  ++ "        \x7d)\n"
  ++ "        process.exit(1)\n"
  ++ "      \x7d\n"
  ++ "    \x7d catch (error: any) \x7b\n"
  ++ "      console.error('❌ Validation failed:', error.message)\n"
  ++ "      process.exit(1)\n"
  ++ "    \x7d\n"
  ++ "  \x7d)\n"
  ++ "\n"
  ++ "program\n"
  ++ "  .command('dev')\n"
  ++ "  .description('Start development server')\n"
  ++ "  .action(async () => \x7b\n"
  ++ "    console.log('🔥 Starting development server...')\n"
  ++ "    \n"
  ++ "    try \x7b\n"
  ++ "      const engine = await createEngine()\n"
  ++ "      \n"
  ++ "      // Start the engine\n"
  ++ "      await engine.start()\n"
  ++ "      const port = engine.getPort()\n"
  ++ "      console.log(`🚀 Digital Twin Engine started on port $\x7bport || '3000'\x7d`)\n"
  ++ "      \n"
  ++ "      // Handle graceful shutdown\n"
  ++ "      process.on('SIGINT', async () => \x7b\n"
  ++ "        console.log('\\n🛑 Shutting down gracefully...')\n"
  ++ "        await engine.stop()\n"
  ++ "        process.exit(0)\n"
  ++ "      \x7d)\n"
  ++ "      \n"
  ++ "    \x7d catch (error: any) \x7b\n"
  ++ "      console.error('❌ Failed to start server:', error.message)\n"
  ++ "      process.exit(1)\n"
  ++ "    \x7d\n"
  ++ "  \x7d)\n"
  ++ "\n"
  ++ "program.parse()\n"

/-! ## The `dt.js` forwarding wrapper (`generateDtCli`, part_001 lines 784-802) -/

/-- The fixed content of the `dt.js` wrapper emitted by the part_001
revision's `generateDtCli`; it takes no options, so the artifact is constant.
Note the source's trailing blank after the spawn options brace. -/
def dtCliContent : String :=
  "#!/usr/bin/env node\n"
  ++ "\n"
  ++ "import \x7b spawn \x7d from 'child_process'\n"
  ++ "\n"
  ++ "// Call digitaltwin-cli with all arguments\n"
  ++ "const args = process.argv.slice(2)\n"
  ++ "const child = spawn('npx', ['digitaltwin-cli', ...args], \x7b \n"
  ++ "  stdio: 'inherit',\n"
  ++ "  cwd: process.cwd()\n"
  ++ "\x7d)\n"
  ++ "\n"
  ++ "child.on('exit', (code) => \x7b\n"
  ++ "  process.exit(code || 0)\n"
  ++ "\x7d)\n"

/-- Modelled from the `dt.js` script text above: the argument vector the
wrapper hands to `npx` (`['digitaltwin-cli', ...args]` where `args` is
`process.argv.slice(2)`, i.e. the wrapper's own CLI arguments). -/
def dtWrapperSpawnArgs (args : List String) : List String :=
  "digitaltwin-cli" :: args

/-- Modelled from the `dt.js` script text above: the wrapper's exit status,
`process.exit(code || 0)`, where `code` is the child's exit code (`null`
when the child was killed by a signal; `0` is falsy in JavaScript). -/
def dtWrapperExitCode (childCode : Option Int) : Int :=
  match childCode with
  | some c => if c = 0 then 0 else c
  | none => 0

/-! ## Fixed artifacts (`generateTsConfig`, `.gitignore`, `Dockerfile`) -/

/-- `JSON.stringify(config, null, 2)` of `generateTsConfig`'s fixed object. -/
def generateTsConfig : String :=
  "\x7b\n  \"compilerOptions\": \x7b\n    \"target\": \"ES2022\",\n    \"module\": \"ESNext\",\n    \"moduleResolution\": \"node\",\n    \"allowSyntheticDefaultImports\": true,\n    \"esModuleInterop\": true,\n    \"allowJs\": true,\n    \"outDir\": \"./dist\",\n    \"rootDir\": \"./src\",\n    \"strict\": true,\n    \"declaration\": true,\n    \"skipLibCheck\": true,\n    \"forceConsistentCasingInFileNames\": true\n  \x7d,\n  \"include\": [\n    \"src/**/*\"\n  ],\n  \"exclude\": [\n    \"node_modules\",\n    \"dist\"\n  ]\n\x7d"

/-- The fixed `.gitignore` content of `generateConfigFiles`. -/
def gitignoreContent : String :=
  "node_modules/\ndist/\n.env\n*.log\nuploads/\ndata/\n.DS_Store\n"

/-- The fixed `Dockerfile` content of `generateDockerFiles`. -/
def dockerfileContent : String :=
  "FROM node:18-alpine\n\nWORKDIR /app\n\nCOPY package*.json ./\nRUN npm ci --only=production\n\nCOPY dist/ ./dist/\nCOPY .env ./\n\nEXPOSE 3000\n\nCMD [\"npm\", \"start\"]\n"

/-! ## Container composition (`generateDockerFiles`, src revision lines 748-818) -/

/-- One block of the generated `docker-compose.yml`, in the order
`generateDockerFiles` appends them: the `app` service with its conditional
`depends_on` entries, then the optional `postgres` service, the optional
`redis` service, and the optional named-volume section. -/
inductive ComposePart where
  | app (dependsOn : List String)
  | postgres (dbName : String)
  | redis
  | namedVolume (volName : String)
deriving DecidableEq

/-- The emitted text of one compose block (exactly the source's template
fragments; the file header is prepended by `dockerComposeContent`). -/
def renderComposePart : ComposePart → String
  | .app deps =>
      "\n  app:\n    build: .\n    ports:\n      - \"3000:3000\"\n    environment:\n      - NODE_ENV=production\n    depends_on:"
      ++ String.join (deps.map (fun s => "\n      - " ++ s))
      ++ "\n    volumes:\n      - ./data:/app/data\n      - ./uploads:/app/uploads\n"
  | .postgres db =>
      "\n  postgres:\n    image: postgres:15-alpine\n    environment:\n      POSTGRES_DB: " ++ db
      ++ "\n      POSTGRES_USER: postgres\n      POSTGRES_PASSWORD: password\n    ports:\n      - \"5432:5432\"\n    volumes:\n      - postgres_data:/var/lib/postgresql/data\n"
  | .redis =>
      "\n  redis:\n    image: redis:7-alpine\n    ports:\n      - \"6379:6379\"\n"
  | .namedVolume v =>
      "\nvolumes:\n  " ++ v ++ ":\n"

/-- The `depends_on` entries of the `app` service. -/
def composeAppDependsOn (a : ProjectAnswers) : List String :=
  (if a.database = "postgresql" then ["postgres"] else [])
  ++ (if a.useRedis then ["redis"] else [])

/-- The blocks of the generated `docker-compose.yml`. -/
def composeParts (a : ProjectAnswers) : List ComposePart :=
  [.app (composeAppDependsOn a)]
  ++ (if a.database = "postgresql" then [.postgres a.projectName] else [])
  ++ (if a.useRedis then [.redis] else [])
  ++ (if a.database = "postgresql" then [.namedVolume "postgres_data"] else [])

/-- The full text of the generated `docker-compose.yml`. -/
def dockerComposeContent (a : ProjectAnswers) : String :=
  "version: '3.8'\n\nservices:"
  ++ String.join ((composeParts a).map renderComposePart)

/-- The services declared by the generated composition, in emission order. -/
def composeServiceNames (a : ProjectAnswers) : List String :=
  (composeParts a).filterMap (fun p =>
    match p with
    | .app _ => some "app"
    | .postgres _ => some "postgres"
    | .redis => some "redis"
    | .namedVolume _ => none)

/-- The named volumes declared by the generated composition. -/
def composeVolumeNames (a : ProjectAnswers) : List String :=
  (composeParts a).filterMap (fun p =>
    match p with
    | .namedVolume v => some v
    | _ => none)

/-! ## Guide composer (`generateReadme`, src revision lines 820-902; the
numbered Getting Started steps are source lines 856-884) -/

/-- The number given to the optional "Set up Redis" step
(`database === 'postgresql' ? '4' : '3'`). -/
def readmeRedisStepNumber (a : ProjectAnswers) : Nat :=
  if a.database = "postgresql" then 4 else 3

/-- The number given to the final "Start development server" step
(`pg || redis ? (pg && redis ? '5' : '4') : '3'`). -/
def readmeStartStepNumber (a : ProjectAnswers) : Nat :=
  if a.database = "postgresql" ∨ a.useRedis then
    (if a.database = "postgresql" ∧ a.useRedis then 5 else 4)
  else 3

/-- How many optional setup steps the guide inserts: a database-setup step
only for PostgreSQL, a queue-setup step only when `useRedis`. -/
def readmeOptionalStepCount (a : ProjectAnswers) : Nat :=
  (if a.database = "postgresql" then 1 else 0) + (if a.useRedis then 1 else 0)

/-- The step numbers of the guide's Getting Started section, in emission
order: install (1), configure (2), the optional PostgreSQL step (3), the
optional Redis step, and the final start-server step. -/
def readmeStepNumbers (a : ProjectAnswers) : List Nat :=
  [1, 2]
  ++ (if a.database = "postgresql" then [3] else [])
  ++ (if a.useRedis then [readmeRedisStepNumber a] else [])
  ++ [readmeStartStepNumber a]

/-- The emitted Getting Started section of the generated `README.md`
(source lines 856-884), with the step numbers spliced from the selectors
above exactly as the source's ternaries do. -/
def readmeGettingStarted (a : ProjectAnswers) : String :=
  "1. **Install dependencies:**\n   ```bash\n   npm install\n   ```\n\n2. **Configure environment:**\n   ```bash\n   cp .env .env.local\n   # Edit .env.local with your actual configuration\n   ```\n\n"
  ++ (if a.database = "postgresql" then
        "3. **Set up PostgreSQL:**\n   ```bash\n   # Make sure PostgreSQL is running and create database\n   createdb "
        ++ a.projectName ++ "\n   ```\n"
      else "")
  ++ (if a.useRedis then
        toString (readmeRedisStepNumber a)
        ++ ". **Set up Redis:**\n   ```bash\n   # Make sure Redis is running\n   redis-server\n   ```\n"
      else "")
  ++ "\n\n"
  ++ toString (readmeStartStepNumber a) ++ ". **Start development server:**"
  ++ "\n   ```bash\n   npm run dev\n   ```\n"

/-! ## Emission driver (`generateProject`, src revision lines 15-44) -/

/-- The example component sources written by `generateExampleComponents`. -/
def exampleComponentPaths : List String :=
  ["src/components/random-data-collector.ts",
   "src/components/data-processor.ts",
   "src/components/index.ts"]

/-- The container artifacts written by `generateDockerFiles`. -/
def dockerArtifactPaths : List String :=
  ["Dockerfile", "docker-compose.yml"]

/-- The artifacts `generateProject` writes on every run. -/
def unconditionalArtifactPaths : List String :=
  ["package.json", "src/index.ts", "src/dt-cli.ts", "tsconfig.json",
   ".env", ".gitignore", "README.md"]

/-- The relative paths of every artifact `generateProject` writes, in write
order: the manifest, the app files, the configuration files, then the
gated example components and container files, and finally the guide. -/
def writtenFiles (a : ProjectAnswers) : List String :=
  ["package.json"]
  ++ ["src/index.ts", "src/dt-cli.ts", "tsconfig.json"]
  ++ [".env", ".gitignore"]
  ++ (if a.includeExamples then exampleComponentPaths else [])
  ++ (if a.includeDocker then dockerArtifactPaths else [])
  ++ ["README.md"]

/-! ## Version lookup and a whole generator run (part_001 revision) -/

/-- `getLatestDigitalTwinCoreVersion` (part_001 lines 69-80): the npm
registry response when the lookup succeeds, else the fixed fallback. -/
def getLatestDigitalTwinCoreVersion (netResponse : Option String) : String :=
  netResponse.getD "0.3.3"

/-- `getLatestDigitalTwinCliVersion` (part_001 lines 83-94). -/
def getLatestDigitalTwinCliVersion (netResponse : Option String) : String :=
  netResponse.getD "0.1.0"

/-- The part_001 revision's `dependencies` map, whose core-framework entry
carries the looked-up version. -/
def packageDependenciesNpm (a : ProjectAnswers) (coreVersion : String) :
    List (String × String) :=
  [("digitaltwin-core", "^" ++ coreVersion), ("knex", "^3.0.0"),
   ("commander", "^12.0.0"), ("dotenv", "^17.2.1")]
  ++ (if a.database = "postgresql" then [("pg", "^8.11.0")]
      else [("better-sqlite3", "^12.2.0")])
  ++ (if a.useRedis then [("ioredis", "^5.6.1")] else [])
  ++ (if a.storage = "ovh" then [("@aws-sdk/client-s3", "^3.842.0")] else [])

/-- The part_001 revision's `devDependencies` map. -/
def packageDevDependenciesNpm (a : ProjectAnswers) (cliVersion : String) :
    List (String × String) :=
  [("@types/node", "^24.0.10"), ("typescript", "^5.0.0"), ("tsx", "^4.19.2"),
   ("digitaltwin-cli", "^" ++ cliVersion)]
  ++ (if a.database = "postgresql" then [("@types/pg", "^8.10.0")] else [])

/-- The ambient state a generator run can observe: the npm registry's
responses for the two version lookups (`none` = the request failed and the
catch branch takes the fixed fallback). -/
structure NetworkState where
  coreResponse : Option String
  cliResponse : Option String
deriving DecidableEq

/-- Everything one generator run produces, as a function of the Options
Model and the ambient network state.  The version lookup (part_001) is the
only ambient-dependent computation in any revision of the generator; every
other field is one of this file's embedded composer outputs. -/
structure GeneratorOutput where
  npmDependencies : List (String × String)
  npmDevDependencies : List (String × String)
  dependencies : List (String × String)
  devDependencies : List (String × String)
  indexFile : String
  cliFile : String
  envFile : String
  tsconfigFile : String
  gitignoreFile : String
  dockerfile : Option String
  dockerCompose : Option String
  readmeSetup : String
  artifactPaths : List String
deriving DecidableEq

/-- One run of the generator. -/
def generatorRun (a : ProjectAnswers) (net : NetworkState) : GeneratorOutput :=
  { npmDependencies :=
      packageDependenciesNpm a (getLatestDigitalTwinCoreVersion net.coreResponse),
    npmDevDependencies :=
      packageDevDependenciesNpm a (getLatestDigitalTwinCliVersion net.cliResponse),
    dependencies := packageDependencies a,
    devDependencies := packageDevDependencies a,
    indexFile := generateIndexFile a,
    cliFile := generateCliFile a,
    envFile := generateEnvFile a,
    tsconfigFile := generateTsConfig,
    gitignoreFile := gitignoreContent,
    dockerfile := if a.includeDocker then some dockerfileContent else none,
    dockerCompose := if a.includeDocker then some (dockerComposeContent a) else none,
    readmeSetup := readmeGettingStarted a,
    artifactPaths := writtenFiles a }

/-- An Options Model with both enum fields outside their legal range. -/
def badBothAnswers : ProjectAnswers :=
  { demoAnswers with database := "mysql", storage := "gcs" }

/-- The demo scenario with PostgreSQL, Redis and Docker all enabled. -/
def demoFullAnswers : ProjectAnswers :=
  { demoAnswers with
    database := "postgresql"
    useRedis := true
    includeDocker := true }

/-! ## Helper lemmas and rendering sanity checks -/

/-- Rendering distributes over concatenation of line lists. -/
theorem concatLines_append (xs ys : List EnvLine) :
    concatLines (xs ++ ys) = concatLines xs ++ concatLines ys := by
  induction xs with
  | nil => simp [concatLines]
  | cons x xs ih => simp [concatLines, ih, String.append_assoc]

set_option maxRecDepth 100000 in
/-- Sanity check: the embedded environment-template composer reproduces the
source's emitted text verbatim on the demo scenario. -/
theorem envFile_demo_rendered :
    generateEnvFile demoAnswers =
      "# demo Digital Twin Configuration\n# This file contains environment variables for your Digital Twin application\n# Copy this to .env and update the values as needed\n\n# Application Configuration\nPORT=3000\n\n# Database Configuration\n# SQLite Database (Good for development)\nDB_PATH=./data/demo.db\n\n# Storage Configuration\n# Local File Storage\nSTORAGE_PATH=./uploads\n\n# Development Configuration\nNODE_ENV=development\n\n# Logging\nLOG_LEVEL=info\n" := by
  rfl

set_option maxRecDepth 100000 in
/-- Sanity check: the embedded composition composer reproduces the source's
emitted `docker-compose.yml` verbatim when every optional service is on. -/
theorem dockerCompose_demoFull_rendered :
    dockerComposeContent demoFullAnswers =
      "version: '3.8'\n\nservices:\n  app:\n    build: .\n    ports:\n      - \"3000:3000\"\n    environment:\n      - NODE_ENV=production\n    depends_on:\n      - postgres\n      - redis\n    volumes:\n      - ./data:/app/data\n      - ./uploads:/app/uploads\n\n  postgres:\n    image: postgres:15-alpine\n    environment:\n      POSTGRES_DB: demo\n      POSTGRES_USER: postgres\n      POSTGRES_PASSWORD: password\n    ports:\n      - \"5432:5432\"\n    volumes:\n      - postgres_data:/var/lib/postgresql/data\n\n  redis:\n    image: redis:7-alpine\n    ports:\n      - \"6379:6379\"\n\nvolumes:\n  postgres_data:\n" := by
  rfl

set_option maxRecDepth 100000 in
/-- Sanity check: the embedded guide composer reproduces the source's
Getting Started section verbatim when both optional steps are present. -/
theorem readmeSteps_demoFull_rendered :
    readmeGettingStarted demoFullAnswers =
      "1. **Install dependencies:**\n   ```bash\n   npm install\n   ```\n\n2. **Configure environment:**\n   ```bash\n   cp .env .env.local\n   # Edit .env.local with your actual configuration\n   ```\n\n3. **Set up PostgreSQL:**\n   ```bash\n   # Make sure PostgreSQL is running and create database\n   createdb demo\n   ```\n4. **Set up Redis:**\n   ```bash\n   # Make sure Redis is running\n   redis-server\n   ```\n\n\n5. **Start development server:**\n   ```bash\n   npm run dev\n   ```\n" := by
  rfl

/-! ## The claims -/

/-- C1, counterexample: on the demo scenario the environment template assigns
`NODE_ENV` and `LOG_LEVEL`, but the generated entry point's validation schema
declares neither, so the two name sets are not equal. -/
theorem claim1_counterexample :
    "NODE_ENV" ∈ envAssignNames demoAnswers
    ∧ "NODE_ENV" ∉ schemaVarNames demoAnswers
    ∧ "LOG_LEVEL" ∈ envAssignNames demoAnswers
    ∧ "LOG_LEVEL" ∉ schemaVarNames demoAnswers := by
  decide

/-- C1, amended: for every valid Options Model the variable names assigned in
the generated environment template are exactly the names declared by the
generated entry point's validation schema followed by the two fixed
template-only extras `NODE_ENV` and `LOG_LEVEL`; apart from those two
variables the two name sets coincide, in order. -/
theorem claim1_theorem (a : ProjectAnswers) (hv : validAnswers a) :
    envAssignNames a = schemaVarNames a ++ ["NODE_ENV", "LOG_LEVEL"] := by
  obtain ⟨hd, hs⟩ := hv
  rcases a with ⟨pn, pp, db, st, lsp, ur, idk, iex⟩
  simp only at hd hs
  rcases hd with h | h <;> rcases hs with h2 | h2 <;> subst h <;> subst h2 <;>
    cases ur <;>
    simp [envAssignNames, envFileLines, envPrefixLines, envFinalLines,
      schemaVarNames, schemaEntries, pgSchemaEntries, sqliteSchemaEntries,
      localStorageSchemaEntries, ovhSchemaEntries, redisSchemaEntries]

/-- C1, witness: the amended statement evaluated on the demo scenario. -/
theorem claim1_witness :
    envAssignNames demoAnswers = schemaVarNames demoAnswers ++ ["NODE_ENV", "LOG_LEVEL"] :=
  claim1_theorem demoAnswers (by decide)

/-- C2: when Docker is requested, the composed service set is exactly the
app service, plus postgres exactly when the database is PostgreSQL, plus
redis exactly when `useRedis`; the `postgres_data` named volume is declared
exactly when the database is PostgreSQL; and with SQLite and no redis the
composition is the app service alone with no `depends_on` entries. -/
theorem claim2_theorem (a : ProjectAnswers) (hv : validAnswers a)
    (hd : a.includeDocker = true) :
    composeServiceNames a =
      "app" :: ((if a.database = "postgresql" then ["postgres"] else [])
        ++ (if a.useRedis then ["redis"] else []))
    ∧ (composeVolumeNames a = ["postgres_data"] ↔ a.database = "postgresql")
    ∧ (a.database = "sqlite" → a.useRedis = false →
        composeParts a = [ComposePart.app []] ∧ composeAppDependsOn a = []) := by
  obtain ⟨hdb, _⟩ := hv
  rcases a with ⟨pn, pp, db, st, lsp, ur, idk, iex⟩
  simp only at hdb hd ⊢
  rcases hdb with h | h <;> subst h <;> cases ur <;>
    simp [composeServiceNames, composeParts, composeAppDependsOn, composeVolumeNames]

/-- C2, witness: the service-set statement evaluated with PostgreSQL, Redis
and Docker all enabled. -/
theorem claim2_witness :
    composeServiceNames demoFullAnswers = ["app", "postgres", "redis"]
    ∧ composeVolumeNames demoFullAnswers = ["postgres_data"] := by
  have h := claim2_theorem demoFullAnswers (by decide) rfl
  refine ⟨?_, h.2.1.mpr (by decide)⟩
  have h1 := h.1
  simpa using h1

/-- C3, counterexample: with SQLite and no redis the guide's final
start-server step is numbered 3 while no optional step is present, so its
number is not 2 plus the count of optional steps as the claim states. -/
theorem claim3_counterexample :
    readmeStartStepNumber demoAnswers = 3
    ∧ readmeOptionalStepCount demoAnswers = 0
    ∧ readmeStartStepNumber demoAnswers ≠ 2 + readmeOptionalStepCount demoAnswers := by
  decide

/-- C3, amended: for every valid Options Model the guide's step numbers are
contiguous starting at 1 with no gaps or duplicates, and the final
start-server step is numbered 3 (not 2) plus the count of optional steps
present. -/
theorem claim3_theorem (a : ProjectAnswers) (hv : validAnswers a) :
    readmeStepNumbers a = List.range' 1 (3 + readmeOptionalStepCount a)
    ∧ readmeStartStepNumber a = 3 + readmeOptionalStepCount a
    ∧ (readmeStepNumbers a).getLast? = some (readmeStartStepNumber a) := by
  obtain ⟨hd, _⟩ := hv
  rcases a with ⟨pn, pp, db, st, lsp, ur, idk, iex⟩
  simp only at hd
  rcases hd with h | h <;> subst h <;> cases ur <;>
    simp [readmeStepNumbers, readmeStartStepNumber, readmeOptionalStepCount,
      readmeRedisStepNumber] <;> decide

/-- C3, witness: the amended statement evaluated with PostgreSQL and Redis
both present (steps 1,2,3,4,5; the start step is 5 = 3 + 2). -/
theorem claim3_witness :
    readmeStepNumbers demoFullAnswers = List.range' 1 (3 + readmeOptionalStepCount demoFullAnswers)
    ∧ readmeStartStepNumber demoFullAnswers = 3 + readmeOptionalStepCount demoFullAnswers
    ∧ (readmeStepNumbers demoFullAnswers).getLast? = some (readmeStartStepNumber demoFullAnswers) :=
  claim3_theorem demoFullAnswers (by decide)

/-- C4, counterexample: the demo scenario writes seven artifacts, not six —
the six the claim names plus the CLI wrapper source `src/dt-cli.ts`. -/
theorem claim4_counterexample :
    writtenFiles demoAnswers =
      ["package.json", "src/index.ts", "src/dt-cli.ts", "tsconfig.json",
       ".env", ".gitignore", "README.md"]
    ∧ (writtenFiles demoAnswers).length ≠ 6 := by
  decide

/-- C4, amended: the demo scenario writes exactly seven artifacts — the
manifest, entry point, CLI wrapper source, compiler config, environment
template, ignore file and guide; the manifest's dependency map contains the
embedded-database driver `sqlite3` and not the PostgreSQL driver `pg`; and
the environment template assigns the optional database-path variable
`DB_PATH` (declared optional in the entry point's schema) and none of the
PostgreSQL `DB_HOST`/`DB_USER`/`DB_PASSWORD` variables. -/
theorem claim4_theorem :
    writtenFiles demoAnswers =
      ["package.json", "src/index.ts", "src/dt-cli.ts", "tsconfig.json",
       ".env", ".gitignore", "README.md"]
    ∧ (writtenFiles demoAnswers).length = 7
    ∧ "sqlite3" ∈ depNames demoAnswers
    ∧ "pg" ∉ depNames demoAnswers
    ∧ "DB_PATH" ∈ envAssignNames demoAnswers
    ∧ SchemaEntry.mk "DB_PATH" "string" true false ∈ schemaEntries demoAnswers
    ∧ "DB_HOST" ∉ envAssignNames demoAnswers
    ∧ "DB_USER" ∉ envAssignNames demoAnswers
    ∧ "DB_PASSWORD" ∉ envAssignNames demoAnswers := by
  decide

/-- C5: the generated dependency maps always contain the core framework, the
query builder and the CLI argument parser; they contain the PostgreSQL driver
and its type declarations exactly when the database is PostgreSQL, the
embedded sqlite3 driver exactly when it is SQLite, the object-storage client
exactly when the storage is OVH, and the queue client exactly when
`useRedis`. -/
theorem claim5_theorem (a : ProjectAnswers) (hv : validAnswers a) :
    ("digitaltwin-core" ∈ depNames a ∧ "knex" ∈ depNames a ∧ "commander" ∈ depNames a)
    ∧ (("pg" ∈ depNames a ∧ "@types/pg" ∈ devDepNames a) ↔ a.database = "postgresql")
    ∧ (("sqlite3" ∈ depNames a) ↔ a.database = "sqlite")
    ∧ (("@aws-sdk/client-s3" ∈ depNames a) ↔ a.storage = "ovh")
    ∧ (("ioredis" ∈ depNames a) ↔ a.useRedis = true) := by
  obtain ⟨hd, hs⟩ := hv
  rcases a with ⟨pn, pp, db, st, lsp, ur, idk, iex⟩
  simp only at hd hs
  rcases hd with h | h <;> rcases hs with h2 | h2 <;> subst h <;> subst h2 <;>
    cases ur <;>
    simp [depNames, packageDependencies, devDepNames, packageDevDependencies]

/-- C5, witness: the dependency-map statement evaluated on the demo
scenario. -/
theorem claim5_witness :
    ("digitaltwin-core" ∈ depNames demoAnswers ∧ "knex" ∈ depNames demoAnswers
      ∧ "commander" ∈ depNames demoAnswers)
    ∧ (("pg" ∈ depNames demoAnswers ∧ "@types/pg" ∈ devDepNames demoAnswers)
        ↔ demoAnswers.database = "postgresql")
    ∧ (("sqlite3" ∈ depNames demoAnswers) ↔ demoAnswers.database = "sqlite")
    ∧ (("@aws-sdk/client-s3" ∈ depNames demoAnswers) ↔ demoAnswers.storage = "ovh")
    ∧ (("ioredis" ∈ depNames demoAnswers) ↔ demoAnswers.useRedis = true) :=
  claim5_theorem demoAnswers (by decide)

set_option maxRecDepth 100000 in
/-- C6, counterexample: on the invalid database value `mysql` no selector
fails — the entry-point composer and the dependency selector silently emit
byte-identical output to the valid SQLite scenario. -/
theorem claim6_counterexample :
    ¬ validAnswers badDatabaseAnswers
    ∧ generateIndexFile badDatabaseAnswers = generateIndexFile demoAnswers
    ∧ packageDependencies badDatabaseAnswers = packageDependencies demoAnswers := by
  refine ⟨by decide, rfl, rfl⟩

/-- C6, amended: the fragment selectors never fail fast and never raise a
configuration error; each branches on an equality test against a single enum
value, with silent per-axis defaulting. On the database axis every selector
tests `=== 'postgresql'`, so any out-of-range database value is treated
exactly as `sqlite`. On the storage axis the selectors disagree: the
entry-point composer tests `=== 'local'`, so an out-of-range storage value
selects its object-storage fragments, while the dependency selector tests
`=== 'ovh'`, so the same value selects its local branch and the
object-storage client package is omitted. -/
theorem claim6_theorem (a : ProjectAnswers) :
    (a.database ≠ "postgresql" →
      generateIndexFile a = generateIndexFile { a with database := "sqlite" }
      ∧ packageDependencies a = packageDependencies { a with database := "sqlite" }
      ∧ envAssignNames a = envAssignNames { a with database := "sqlite" })
    ∧ (a.storage ≠ "local" →
      generateIndexFile a = generateIndexFile { a with storage := "ovh" }
      ∧ schemaEntries a = schemaEntries { a with storage := "ovh" })
    ∧ (a.storage ≠ "ovh" →
      packageDependencies a = packageDependencies { a with storage := "local" }
      ∧ "@aws-sdk/client-s3" ∉ depNames a) := by
  have hso : ("sqlite" : String) ≠ "postgresql" := by decide
  have hoo : ("ovh" : String) ≠ "local" := by decide
  have hlo : ("local" : String) ≠ "ovh" := by decide
  rcases a with ⟨pn, pp, db, st, lsp, ur, idk, iex⟩
  refine ⟨fun hdb => ?_, fun hst => ?_, fun hsv => ?_⟩
  · simp only at hdb
    refine ⟨?_, ?_, ?_⟩ <;>
      simp [generateIndexFile, packageDependencies, envAssignNames, envFileLines,
        envPrefixLines, envFinalLines, schemaEntries, dbConfigSection, dbConfigStr,
        dbDisplay, storageClassName, storageConfigSection, storageInitStr,
        storageDisplay, hdb, hso, exampleImportsStr, exampleComponentsStr,
        queueDisplay, redisConfigSection, jsOr, renderSchemaBlock, renderSchemaEntry,
        pgSchemaEntries, sqliteSchemaEntries, localStorageSchemaEntries,
        ovhSchemaEntries, redisSchemaEntries]
  · simp only at hst
    refine ⟨?_, ?_⟩ <;>
      simp [generateIndexFile, schemaEntries, storageClassName,
        storageConfigSection, storageInitStr, storageDisplay, hst, hoo,
        dbConfigSection, dbConfigStr, dbDisplay, exampleImportsStr,
        exampleComponentsStr, queueDisplay, redisConfigSection, jsOr,
        renderSchemaBlock, renderSchemaEntry, pgSchemaEntries, sqliteSchemaEntries,
        localStorageSchemaEntries, ovhSchemaEntries, redisSchemaEntries]
  · simp only at hsv
    refine ⟨?_, ?_⟩
    · simp [packageDependencies, hsv, hlo]
    · by_cases hdb2 : db = "postgresql" <;> cases ur <;>
        simp [depNames, packageDependencies, hsv, hdb2]

/-- C6, witness: every silent-defaulting clause evaluated on the
doubly-invalid Options Model with `database = mysql` and `storage = gcs`
(which lies outside both `local` and `ovh`). -/
theorem claim6_witness :
    (generateIndexFile badBothAnswers
        = generateIndexFile { badBothAnswers with database := "sqlite" }
     ∧ packageDependencies badBothAnswers
        = packageDependencies { badBothAnswers with database := "sqlite" }
     ∧ envAssignNames badBothAnswers
        = envAssignNames { badBothAnswers with database := "sqlite" })
    ∧ (generateIndexFile badBothAnswers
        = generateIndexFile { badBothAnswers with storage := "ovh" }
     ∧ schemaEntries badBothAnswers
        = schemaEntries { badBothAnswers with storage := "ovh" })
    ∧ (packageDependencies badBothAnswers
        = packageDependencies { badBothAnswers with storage := "local" }
     ∧ "@aws-sdk/client-s3" ∉ depNames badBothAnswers) := by
  have h := claim6_theorem badBothAnswers
  exact ⟨h.1 (by decide), h.2.1 (by decide), h.2.2 (by decide)⟩

/-- C7: the set of relative artifact paths is a function of the two boolean
gates alone — two valid Options Models agreeing on `includeExamples` and
`includeDocker` write the same paths regardless of database, storage and
`localStoragePath`; the example component files are written exactly when
`includeExamples`, the container files exactly when `includeDocker`, and the
remaining seven artifacts unconditionally. -/
theorem claim7_theorem (a b : ProjectAnswers) (hva : validAnswers a)
    (hvb : validAnswers b)
    (hex : a.includeExamples = b.includeExamples)
    (hdk : a.includeDocker = b.includeDocker) :
    writtenFiles a = writtenFiles b
    ∧ (∀ p ∈ exampleComponentPaths, (p ∈ writtenFiles a ↔ a.includeExamples = true))
    ∧ (∀ p ∈ dockerArtifactPaths, (p ∈ writtenFiles a ↔ a.includeDocker = true))
    ∧ (∀ p ∈ unconditionalArtifactPaths, p ∈ writtenFiles a) := by
  clear hva hvb
  refine ⟨by simp only [writtenFiles, hex, hdk], ?_, ?_, ?_⟩ <;>
    cases hiex : a.includeExamples <;> cases hidk : a.includeDocker <;>
      intro p hp <;> fin_cases hp <;>
        simp [writtenFiles, hiex, hidk, exampleComponentPaths, dockerArtifactPaths,
          unconditionalArtifactPaths]

/-- C7, witness: two valid models differing in database and storage but
agreeing on both gates write identical path sets. -/
theorem claim7_witness :
    writtenFiles demoAnswers = writtenFiles demoPgAnswers
    ∧ (∀ p ∈ exampleComponentPaths,
        (p ∈ writtenFiles demoAnswers ↔ demoAnswers.includeExamples = true))
    ∧ (∀ p ∈ dockerArtifactPaths,
        (p ∈ writtenFiles demoAnswers ↔ demoAnswers.includeDocker = true))
    ∧ (∀ p ∈ unconditionalArtifactPaths, p ∈ writtenFiles demoAnswers) :=
  claim7_theorem demoAnswers demoPgAnswers (by decide) (by decide) rfl rfl

/-- C8: a generator run is a deterministic function of the Options Model —
two runs whose version lookups both fail (and therefore both take the fixed
fallback path) produce byte-identical output for every artifact, whatever
else the two ambient network states were. -/
theorem claim8_theorem (a : ProjectAnswers) (net1 net2 : NetworkState)
    (hv : validAnswers a)
    (h1c : net1.coreResponse = none) (h1r : net1.cliResponse = none)
    (h2c : net2.coreResponse = none) (h2r : net2.cliResponse = none) :
    generatorRun a net1 = generatorRun a net2 := by
  clear hv
  rcases net1 with ⟨c1, r1⟩
  rcases net2 with ⟨c2, r2⟩
  simp only at h1c h1r h2c h2r
  subst h1c; subst h1r; subst h2c; subst h2r
  rfl

/-- C8, witness: two failed-lookup runs on the demo scenario coincide. -/
theorem claim8_witness :
    generatorRun demoAnswers (NetworkState.mk none none)
      = generatorRun demoAnswers (NetworkState.mk none none) :=
  claim8_theorem demoAnswers (NetworkState.mk none none) (NetworkState.mk none none)
    (by decide) rfl rfl rfl rfl

set_option maxRecDepth 20000 in
/-- C9, counterexample: the current revision's CLI artifact `src/dt-cli.ts`
is not the thin forwarding script — its content differs from the `dt.js`
wrapper and even varies with the chosen database, which no pure
argument-forwarder can do. -/
theorem claim9_counterexample :
    generateCliFile demoAnswers ≠ dtCliContent
    ∧ generateCliFile demoAnswers ≠ generateCliFile demoPgAnswers := by
  constructor
  · decide
  · decide

/-- C9, amended: only the historical part_001 revision emits a thin
forwarding wrapper (`dt.js`): that wrapper passes exactly its own argument
list to the external `digitaltwin-cli` tool and exits with the child's exit
code unchanged for every numeric code (a null code, a signal kill, maps to
0); the current revision's CLI artifact is instead a self-contained command
program. -/
theorem claim9_theorem :
    (∀ args : List String, dtWrapperSpawnArgs args = "digitaltwin-cli" :: args)
    ∧ (∀ c : Int, dtWrapperExitCode (some c) = c)
    ∧ dtWrapperExitCode none = 0 := by
  refine ⟨fun _ => rfl, fun c => ?_, rfl⟩
  by_cases h : c = 0
  · simp [dtWrapperExitCode, h]
  · simp [dtWrapperExitCode, h]

/-- C10: every generated environment template ends with the fixed
`NODE_ENV=development` and `LOG_LEVEL=info` lines, although the generated
entry point's validation schema declares neither variable. -/
theorem claim10_theorem (a : ProjectAnswers) (hv : validAnswers a) :
    (∃ s, generateEnvFile a =
      s ++ "\n# Development Configuration\nNODE_ENV=development\n\n# Logging\nLOG_LEVEL=info\n")
    ∧ "NODE_ENV" ∉ schemaVarNames a ∧ "LOG_LEVEL" ∉ schemaVarNames a := by
  obtain ⟨hd, hs⟩ := hv
  refine ⟨⟨concatLines (envPrefixLines a), ?_⟩, ?_, ?_⟩
  · have h1 : generateEnvFile a
        = concatLines (envPrefixLines a) ++ concatLines envFinalLines := by
      rw [generateEnvFile, envFileLines, concatLines_append]
    have h2 : concatLines envFinalLines
        = "\n# Development Configuration\nNODE_ENV=development\n\n# Logging\nLOG_LEVEL=info\n" := by
      rfl
    rw [h1, h2]
  all_goals
    rcases a with ⟨pn, pp, db, st, lsp, ur, idk, iex⟩
    simp only at hd hs
    rcases hd with h | h <;> rcases hs with h2 | h2 <;> subst h <;> subst h2 <;>
      cases ur <;>
      simp [schemaVarNames, schemaEntries, pgSchemaEntries, sqliteSchemaEntries,
        localStorageSchemaEntries, ovhSchemaEntries, redisSchemaEntries]

/-- C10, witness: the fixed-tail statement evaluated on the demo scenario. -/
theorem claim10_witness :
    (∃ s, generateEnvFile demoAnswers =
      s ++ "\n# Development Configuration\nNODE_ENV=development\n\n# Logging\nLOG_LEVEL=info\n")
    ∧ "NODE_ENV" ∉ schemaVarNames demoAnswers
    ∧ "LOG_LEVEL" ∉ schemaVarNames demoAnswers :=
  claim10_theorem demoAnswers (by decide)

end CreateDigitalTwin
